import Mathlib

/-!
Verification of the multi-tier data-freshness/fallback cache of the
Brazil flight tracker. The definitions below are a shallow embedding of
`src/utils/storage.ts`, the storage module duplicate shipped alongside it,
the fetch orchestrator in `src/app.tsx` (`fetchData`), and the OpenSky
client `src/api/opensky.ts` (`fetchBrazilFlights`).

Browser `localStorage` is modelled as a record with one parsed slot per
storage key used by the module (`opensky_flight_data`,
`opensky_flight_timestamp`, `opensky_api_failure_count`); JSON
serialization round-trips, so the snapshot slot holds the value itself.
Exceptional outcomes of `localStorage.setItem` (quota exhaustion) are
injected through an explicit environment, and outcomes of the remote
Vercel mirror endpoint through a `MirrorOutcome` parameter.
-/

namespace Flightradar

/-- Scalar values appearing in an OpenSky state vector (JSON scalars):
null, booleans, numbers (modelled exactly as rationals) and strings. -/
inductive Val where
  | vnull
  | vbool (b : Bool)
  | vnum (q : ℚ)
  | vstr (s : String)
deriving DecidableEq, Repr

/-- FlightData from storage.ts / opensky.ts: an upstream capture time and
the state rows. A row is `none` when the upstream array holds a null
entry (the source guards each row with a truthiness check). -/
structure FlightData where
  time : Int
  states : List (Option (List Val))
deriving DecidableEq, Repr

/-- Parsed view of the three localStorage slots used by storage.ts:
`STORAGE_KEY` (the saved snapshot), `STORAGE_TIMESTAMP_KEY`
(milliseconds since epoch of the save) and `STORAGE_API_FAILURE_KEY`
(consecutive-failure counter). `none` means the key is absent. -/
structure LocalStorage where
  flightData : Option FlightData
  timestamp : Option Nat
  failureCount : Option Nat
deriving DecidableEq, Repr

/-- CACHE_DURATION from storage.ts: 5 minutes in milliseconds. -/
def CACHE_DURATION : Nat := 5 * 60 * 1000

/-- EXTENDED_CACHE_DURATION from storage.ts: 24 hours in milliseconds,
used when the API has been failing. -/
def EXTENDED_CACHE_DURATION : Nat := 24 * 60 * 60 * 1000

/-- Outcome of one `localStorage.setItem` call: success, a quota
`DOMException` named QuotaExceededError, or any other exception. -/
inductive WriteOutcome where
  | ok
  | quotaExceeded
  | otherError
deriving DecidableEq, Repr

/-- Outcomes of the (up to four) `localStorage.setItem` calls
`saveFlightData` can issue, in call order: first attempt on the data key,
first attempt on the timestamp key, then (after a quota error and a
clear) the retry on each. -/
structure WriteEnv where
  firstKey : WriteOutcome
  firstTs : WriteOutcome
  retryKey : WriteOutcome
  retryTs : WriteOutcome
deriving DecidableEq, Repr

/-- Outcome of the remote Vercel mirror endpoint as observed by one
`fetch` of `/api/flight-data`: HTTP success, an HTTP error status, or a
transport-level failure (the `fetch` promise rejects). -/
inductive MirrorOutcome where
  | ok
  | httpError (status : Nat)
  | transportError
deriving DecidableEq, Repr

/-- getFailureCount: storage.ts reads the failure counter with
`parseInt(localStorage.getItem(STORAGE_API_FAILURE_KEY) || '0', 10)`,
so an absent key reads as 0. -/
def getFailureCount (s : LocalStorage) : Nat :=
  s.failureCount.getD 0

/-- Freshness window as computed inline in `loadFlightData`:
`failureCount > 3 ? EXTENDED_CACHE_DURATION : CACHE_DURATION`. -/
def windowFor (failureCount : Nat) : Nat :=
  if failureCount > 3 then EXTENDED_CACHE_DURATION else CACHE_DURATION

/-- clearFlightData from storage.ts: removes the data key and the
timestamp key; the failure-count key is not touched. Wrapped in
try/catch in the source, and `removeItem` does not throw, so it is a
total state transformer. -/
def clearFlightData (s : LocalStorage) : LocalStorage :=
  { s with flightData := none, timestamp := none }

/-- Retry path inside the `QuotaExceededError` branch of
`saveFlightData`: clear the old entry, then retry the two `setItem`
calls once inside an inner try/catch whose failure is only logged. -/
def saveRetryAfterClear (env : WriteEnv) (d : FlightData) (now : Nat)
    (s : LocalStorage) : LocalStorage :=
  let s0 := clearFlightData s
  match env.retryKey with
  | WriteOutcome.ok =>
    let s1 := { s0 with flightData := some d }
    match env.retryTs with
    | WriteOutcome.ok => { s1 with timestamp := some now }
    | _ => s1
  | _ => s0

/-- saveFlightData from storage.ts. Guard: a missing snapshot or one with
an empty `states` array is not saved (`return` after a warning). On the
plain path it writes the data key, then the timestamp key, then removes
the failure-count key, then fires the background Vercel push with
`.catch(...)` — the push is not awaited and its outcome `m` does not
enter any localStorage write, which is why `m` does not occur in the
body. A `QuotaExceededError` from either `setItem` is handled by
clearing and retrying once (`saveRetryAfterClear`); note the retry path
contains no `removeItem(STORAGE_API_FAILURE_KEY)`. Any other exception
is only logged. The whole body is inside try/catch, so the function
never throws to its caller: it is a total state transformer. -/
def saveFlightData (env : WriteEnv) (m : MirrorOutcome)
    (data : Option FlightData) (now : Nat) (s : LocalStorage) :
    LocalStorage :=
  match data with
  | none => s
  | some d =>
    if d.states.length = 0 then s
    else
      match env.firstKey with
      | WriteOutcome.ok =>
        let s1 := { s with flightData := some d }
        match env.firstTs with
        | WriteOutcome.ok =>
          { s1 with timestamp := some now, failureCount := none }
        | WriteOutcome.quotaExceeded => saveRetryAfterClear env d now s1
        | WriteOutcome.otherError => s1
      | WriteOutcome.quotaExceeded => saveRetryAfterClear env d now s
      | WriteOutcome.otherError => s

/-- loadFlightData from storage.ts: absent timestamp means never saved;
otherwise compute the age, pick the window from the failure count, and
return `null` (without deleting anything) when the age exceeds the
window or the data key is absent. -/
def loadFlightData (s : LocalStorage) (now : Nat) : Option FlightData :=
  match s.timestamp with
  | none => none
  | some t =>
    let age := now - t
    let cacheDuration := windowFor (getFailureCount s)
    if age > cacheDuration then none
    else
      match s.flightData with
      | none => none
      | some d => some d

/-- loadFlightDataEmergency from storage.ts: return whatever is under
the data key regardless of its age, `null` when the key is absent. -/
def loadFlightDataEmergency (s : LocalStorage) : Option FlightData :=
  match s.flightData with
  | none => none
  | some d => some d

/-- recordApiFailure from storage.ts: read the counter (absent reads as
0), write back the successor. The storage writes here are modelled as
succeeding; the source wraps them in try/catch and logs on error. -/
def recordApiFailure (s : LocalStorage) : LocalStorage :=
  { s with failureCount := some (getFailureCount s + 1) }

/-- Value recordApiFailure hands back to its caller: the source declares
`export function recordApiFailure(): void` and no path executes a
`return expr`, so the caller always observes `undefined`, modelled as
`none : Option Nat`. -/
def recordApiFailureReturn (_s : LocalStorage) : Option Nat :=
  none

/-- Iterated recordApiFailure: N recorded failures with no intervening
save. -/
def recordApiFailureN : Nat → LocalStorage → LocalStorage
  | 0, s => s
  | n + 1, s => recordApiFailureN n (recordApiFailure s)

/-- saveFlightDataToVercel from storage.ts: POST the snapshot to
`/api/flight-data`. Guard: missing or empty snapshot returns false. An
OK response returns true; a non-OK status returns false; a rejected
fetch is caught and returns false. The result type records that every
path ends in `Except.ok`: the function never throws to its caller. -/
def saveFlightDataToVercel (m : MirrorOutcome) (data : Option FlightData) :
    Except Unit Bool :=
  match data with
  | none => Except.ok false
  | some d =>
    if d.states.length = 0 then Except.ok false
    else
      match m with
      | MirrorOutcome.ok => Except.ok true
      | MirrorOutcome.httpError _ => Except.ok false
      | MirrorOutcome.transportError => Except.ok false

namespace Part006

/-- saveFlightData of the duplicate storage module (src/unnamed/part_006):
identical to the storage.ts version except that it fires no Vercel push
on either path, so it takes no mirror-outcome parameter. -/
def saveFlightData (env : WriteEnv) (data : Option FlightData) (now : Nat)
    (s : LocalStorage) : LocalStorage :=
  match data with
  | none => s
  | some d =>
    if d.states.length = 0 then s
    else
      match env.firstKey with
      | WriteOutcome.ok =>
        let s1 := { s with flightData := some d }
        match env.firstTs with
        | WriteOutcome.ok =>
          { s1 with timestamp := some now, failureCount := none }
        | WriteOutcome.quotaExceeded => saveRetryAfterClear env d now s1
        | WriteOutcome.otherError => s1
      | WriteOutcome.quotaExceeded => saveRetryAfterClear env d now s
      | WriteOutcome.otherError => s

/-- loadFlightData of the duplicate storage module (src/unnamed/part_006):
textually identical logic to the storage.ts version. -/
def loadFlightData (s : LocalStorage) (now : Nat) : Option FlightData :=
  match s.timestamp with
  | none => none
  | some t =>
    let age := now - t
    let cacheDuration := windowFor (getFailureCount s)
    if age > cacheDuration then none
    else
      match s.flightData with
      | none => none
      | some d => some d

end Part006

/-- Source a rendered snapshot came from, for stating the fallback
ordering of the orchestrator. -/
inductive SourceTag where
  | live
  | localCache
  | localEmergency
  | remoteMirror
  | staticSnap
  | empty
deriving DecidableEq, Repr

/-- Rendered outcome of one refresh cycle: the snapshot handed to the
render path (none for the empty map), where it came from, and the error
message surfaced to the UI via `setError`. -/
structure RenderOutcome where
  rendered : Option FlightData
  tag : SourceTag
  error : Option String
deriving DecidableEq, Repr

/-- Truthiness test `cachedData && cachedData.states &&
cachedData.states.length > 0` used by fetchData in app.tsx. -/
def hasEntries : Option FlightData → Bool
  | none => false
  | some d => !d.states.isEmpty

/-- Failure branch of fetchData in app.tsx (its catch block): surface the
error, call recordApiFailure, try loadFlightData, fall back to
loadFlightDataEmergency when that yields nothing usable, and render the
empty map when both local loads fail. The snapshots available from the
remote Vercel mirror and from the bundled static file are passed in as
`mirror` and `staticSnap`; they do not occur in the body because the
catch block never calls loadFlightDataFromVercel or
loadStaticFlightData. -/
def fetchDataFailurePath (s : LocalStorage) (now : Nat)
    (mirror staticSnap : Option FlightData) (msg : String) :
    LocalStorage × RenderOutcome :=
  let s1 := recordApiFailure s
  let normal := loadFlightData s1 now
  if hasEntries normal then
    (s1, ⟨normal, SourceTag.localCache, some msg⟩)
  else
    let emergency := loadFlightDataEmergency s1
    if hasEntries emergency then
      (s1, ⟨emergency, SourceTag.localEmergency, some msg⟩)
    else
      (s1, ⟨none, SourceTag.empty, some msg⟩)

/-- Success branch of fetchData in app.tsx: a fetched snapshot with zero
states triggers an early `return` that keeps whatever was already
rendered and saves nothing; otherwise the snapshot is saved and
rendered. -/
def fetchDataSuccessPath (env : WriteEnv) (m : MirrorOutcome)
    (s : LocalStorage) (now : Nat) (data : FlightData)
    (prevRendered : Option FlightData) :
    LocalStorage × Option FlightData :=
  if data.states.length = 0 then (s, prevRendered)
  else (saveFlightData env m (some data) now s, some data)

/-- Failure taxonomy of fetchBrazilFlights in opensky.ts: the messages
thrown for status 429, status 401, any other non-OK status, and a body
whose `states` field is missing or not an array. -/
inductive FetchError where
  | rateLimited
  | unauthorized
  | httpError (status : Nat)
  | malformed
deriving DecidableEq, Repr

/-- Body of the HTTP response as seen by fetchBrazilFlights after
`response.json()`: `states` is `none` when the field is missing or not
an array (the `!data.states || !Array.isArray(data.states)` check). -/
structure RawResponse where
  time : Int
  states : Option (List (Option (List Val)))
deriving DecidableEq, Repr

/-- JavaScript comparison `v < 0` as applied by the filter to a
barometric-altitude cell: true exactly for a negative number. The other
scalar shapes that reach this comparison (booleans, strings) coerce to
numbers in JavaScript; the OpenSky schema makes this cell a number or
null, and null is rejected before the comparison. -/
def valIsNeg : Val → Bool
  | Val.vnum q => q < 0
  | _ => false

/-- Row filter of fetchBrazilFlights in opensky.ts: reject null rows and
rows shorter than 17 cells; reject a null longitude or latitude, or the
pair (0, 0); reject aircraft on ground; reject a null or negative
barometric altitude. Cell indices follow DATA_INDEX: LONGITUDE = 5,
LATITUDE = 6, BARO_ALTITUDE = 7, ON_GROUND = 8. -/
def validState : Option (List Val) → Bool
  | none => false
  | some st =>
    if st.length < 17 then false
    else
      let lon := st.getD 5 Val.vnull
      let lat := st.getD 6 Val.vnull
      let onGround := st.getD 8 Val.vnull
      let baroAltitude := st.getD 7 Val.vnull
      if lon = Val.vnull ∨ lat = Val.vnull ∨
          (lon = Val.vnum 0 ∧ lat = Val.vnum 0) then false
      else if onGround = Val.vbool true then false
      else if baroAltitude = Val.vnull ∨ valIsNeg baroAltitude then false
      else true

/-- fetchBrazilFlights from opensky.ts, as a function of the response
status and parsed body: a non-OK status (outside 200..299, the range
where `response.ok` holds) throws per the status; a body without a
states array throws the invalid-format error; otherwise the rows are
filtered by `validState` and returned with the upstream time. -/
def fetchBrazilFlights (status : Nat) (body : RawResponse) :
    Except FetchError FlightData :=
  if ¬ (200 ≤ status ∧ status < 300) then
    if status = 429 then Except.error FetchError.rateLimited
    else if status = 401 then Except.error FetchError.unauthorized
    else Except.error (FetchError.httpError status)
  else
    match body.states with
    | none => Except.error FetchError.malformed
    | some sts =>
      Except.ok { time := body.time, states := sts.filter validState }

/-- C2: the freshness policy is a pure step function of the failure
count alone: every count up to 3 gets the short 5-minute window used by
loadFlightData, every count above 3 the long 24-hour window; in
particular count 3 gets the short window and count 4 the long one. -/
theorem c2_windowFor_is_step_function :
    (∀ n : Nat, n ≤ 3 → windowFor n = CACHE_DURATION) ∧
    (∀ n : Nat, n > 3 → windowFor n = EXTENDED_CACHE_DURATION) ∧
    windowFor 3 = CACHE_DURATION ∧
    windowFor 4 = EXTENDED_CACHE_DURATION ∧
    CACHE_DURATION = 5 * 60 * 1000 ∧
    EXTENDED_CACHE_DURATION = 24 * 60 * 60 * 1000 := by
  refine ⟨fun n hn => ?_, fun n hn => ?_, by decide, by decide, rfl, rfl⟩
  · unfold windowFor
    rw [if_neg (by omega)]
  · unfold windowFor
    rw [if_pos hn]

/-- Witness for C2 at the concrete counts 2 and 7. -/
theorem c2_windowFor_is_step_function_witness :
    windowFor 2 = CACHE_DURATION ∧ windowFor 7 = EXTENDED_CACHE_DURATION :=
  ⟨c2_windowFor_is_step_function.1 2 (by decide),
   c2_windowFor_is_step_function.2.1 7 (by decide)⟩

/-- C3: saving a missing snapshot or one whose states sequence is empty
changes no persisted slot (and the total function throws nothing), and
the orchestrator's success branch with zero entries keeps both the
store and the previously rendered data unchanged. An empty-states
snapshot is exactly one of the form ⟨t, []⟩. -/
theorem c3_empty_save_is_noop (env : WriteEnv) (m : MirrorOutcome)
    (s : LocalStorage) (now : Nat) (t : Int) (prev : Option FlightData) :
    saveFlightData env m none now s = s ∧
    saveFlightData env m (some ⟨t, []⟩) now s = s ∧
    fetchDataSuccessPath env m s now ⟨t, []⟩ prev = (s, prev) :=
  ⟨rfl, rfl, rfl⟩

/-- C8: clearFlightData removes exactly the snapshot and its timestamp,
and the failure count after the call equals its value before. -/
theorem c8_clear_scope (s : LocalStorage) :
    (clearFlightData s).flightData = none ∧
    (clearFlightData s).timestamp = none ∧
    (clearFlightData s).failureCount = s.failureCount :=
  ⟨rfl, rfl, rfl⟩

/-- C6: once a save has happened (both slots populated), loadFlightData
returns the stored snapshot exactly when its age is at most the window
for the current failure count — and deletes nothing, the same state
still serves loadFlightDataEmergency — while loadFlightDataEmergency
returns whatever is under the data key unconditionally, absent exactly
when the data key is absent. -/
theorem c6_load_iff_fresh_emergency_unconditional :
    (∀ (s : LocalStorage) (now : Nat) (d : FlightData) (t : Nat),
        s.flightData = some d → s.timestamp = some t →
          ((loadFlightData s now = some d ↔
              now - t ≤ windowFor (getFailureCount s)) ∧
            loadFlightDataEmergency s = some d)) ∧
    (∀ s : LocalStorage, loadFlightDataEmergency s = s.flightData) := by
  constructor
  · intro s now d t hd ht
    constructor
    · simp only [loadFlightData, ht, hd]
      by_cases hc : now - t > windowFor (getFailureCount s)
      · rw [if_pos hc]
        constructor
        · intro h
          exact absurd h (by simp)
        · intro h
          omega
      · rw [if_neg hc]
        constructor
        · intro _
          omega
        · intro _
          rfl
    · unfold loadFlightDataEmergency
      rw [hd]
  · intro s
    unfold loadFlightDataEmergency
    cases s.flightData <;> rfl

/-- Witness for C6: a snapshot saved at time 0 and read 1000 ms later
with no recorded failures is returned by loadFlightData. -/
theorem c6_load_iff_fresh_witness :
    loadFlightData ⟨some ⟨0, [some []]⟩, some 0, none⟩ 1000
      = some ⟨0, [some []]⟩ :=
  ((c6_load_iff_fresh_emergency_unconditional.1
      ⟨some ⟨0, [some []]⟩, some 0, none⟩ 1000 ⟨0, [some []]⟩ 0
      rfl rfl).1).mpr (by decide)

/-- C7: the Vercel push never throws to its caller — every endpoint
outcome ends in `Except.ok` — and the local persisted state produced by
saveFlightData is identical whatever the mirror outcome is, because the
push is fired with `.catch` and never awaited. -/
theorem c7_mirror_push_is_fire_and_forget :
    (∀ (m : MirrorOutcome) (data : Option FlightData),
        ∃ b : Bool, saveFlightDataToVercel m data = Except.ok b) ∧
    (∀ (env : WriteEnv) (m m' : MirrorOutcome) (data : Option FlightData)
        (now : Nat) (s : LocalStorage),
        saveFlightData env m data now s = saveFlightData env m' data now s) := by
  constructor
  · intro m data
    match data with
    | none => exact ⟨false, rfl⟩
    | some d =>
      by_cases h : d.states.length = 0
      · exact ⟨false, by simp [saveFlightDataToVercel, h]⟩
      · cases m with
        | ok => exact ⟨true, by simp [saveFlightDataToVercel, h]⟩
        | httpError st => exact ⟨false, by simp [saveFlightDataToVercel, h]⟩
        | transportError => exact ⟨false, by simp [saveFlightDataToVercel, h]⟩
  · intro env m m' data now s
    rfl

/-- C9: the two near-duplicate storage modules are equivalent on local
persisted state and return values: saveFlightData of storage.ts equals
the part_006 version for every mirror outcome, and the two
loadFlightData versions compute the same function. -/
theorem c9_duplicate_modules_equivalent :
    (∀ (env : WriteEnv) (m : MirrorOutcome) (data : Option FlightData)
        (now : Nat) (s : LocalStorage),
        saveFlightData env m data now s
          = Part006.saveFlightData env data now s) ∧
    (∀ (s : LocalStorage) (now : Nat),
        loadFlightData s now = Part006.loadFlightData s now) :=
  ⟨fun _ _ _ _ _ => rfl, fun _ _ => rfl⟩

/-- Count of iterated failure recordings: each recordApiFailure adds
exactly one to the read count, so N iterations add N. -/
theorem recordApiFailureN_count (n : Nat) (s : LocalStorage) :
    getFailureCount (recordApiFailureN n s) = getFailureCount s + n := by
  induction n generalizing s with
  | zero => rfl
  | succ k ih =>
    rw [recordApiFailureN, ih]
    simp only [recordApiFailure, getFailureCount, Option.getD_some]
    omega

/-- C4 counterexample: recordApiFailure is declared `(): void`, so on
the empty store the caller receives no value at all, not the new count
1, even though the persisted counter does become 1. -/
theorem c4_counterexample_void_return :
    (recordApiFailure ⟨none, none, none⟩).failureCount = some 1 ∧
    recordApiFailureReturn ⟨none, none, none⟩ = none ∧
    recordApiFailureReturn ⟨none, none, none⟩ ≠ some 1 :=
  ⟨rfl, rfl, by decide⟩

/-- C4 amended: recordApiFailure increments the persisted
consecutive-failure count by exactly 1 and touches nothing else, but
returns no value to its caller; after N recordings with no intervening
save a count that started at 0 equals N; and one successful save of a
non-empty snapshot (all storage writes succeeding) resets the count to
0 regardless of its prior value. -/
theorem c4_amended_increment_persist_reset :
    (∀ s : LocalStorage,
        (recordApiFailure s).failureCount = some (getFailureCount s + 1) ∧
        (recordApiFailure s).flightData = s.flightData ∧
        (recordApiFailure s).timestamp = s.timestamp ∧
        recordApiFailureReturn s = none) ∧
    (∀ (n : Nat) (s : LocalStorage), getFailureCount s = 0 →
        getFailureCount (recordApiFailureN n s) = n) ∧
    (∀ (m : MirrorOutcome) (d : FlightData) (now : Nat) (s : LocalStorage),
        d.states.length ≠ 0 →
        getFailureCount
          (saveFlightData
            ⟨WriteOutcome.ok, WriteOutcome.ok, WriteOutcome.ok,
              WriteOutcome.ok⟩ m (some d) now s) = 0) := by
  refine ⟨fun s => ⟨rfl, rfl, rfl, rfl⟩, fun n s h0 => ?_, ?_⟩
  · rw [recordApiFailureN_count, h0, Nat.zero_add]
  · intro m d now s hne
    simp [saveFlightData, getFailureCount, hne]

/-- Witness for C4: three recordings from the empty store give count 3,
and a successful save from a store with count 3 resets it to 0. -/
theorem c4_amended_witness :
    getFailureCount (recordApiFailureN 3 ⟨none, none, none⟩) = 3 ∧
    getFailureCount
      (saveFlightData
        ⟨WriteOutcome.ok, WriteOutcome.ok, WriteOutcome.ok, WriteOutcome.ok⟩
        MirrorOutcome.ok (some ⟨0, [some []]⟩) 5 ⟨none, none, some 3⟩) = 0 :=
  ⟨c4_amended_increment_persist_reset.2.1 3 ⟨none, none, none⟩ rfl,
   c4_amended_increment_persist_reset.2.2 MirrorOutcome.ok ⟨0, [some []]⟩ 5
     ⟨none, none, some 3⟩ (by decide)⟩

/-- C5 counterexample: first setItem hits the quota, the clear-and-retry
succeeds, the snapshot and timestamp are persisted — yet the failure
count keeps its prior value 2 instead of being reset to 0, because the
retry path never removes the failure-count key. -/
theorem c5_counterexample_retry_keeps_failure_count :
    saveFlightData
        ⟨WriteOutcome.quotaExceeded, WriteOutcome.ok, WriteOutcome.ok,
          WriteOutcome.ok⟩ MirrorOutcome.ok
        (some ⟨0, [some []]⟩) 5 ⟨none, none, some 2⟩
      = ⟨some ⟨0, [some []]⟩, some 5, some 2⟩ ∧
    getFailureCount
      (saveFlightData
        ⟨WriteOutcome.quotaExceeded, WriteOutcome.ok, WriteOutcome.ok,
          WriteOutcome.ok⟩ MirrorOutcome.ok
        (some ⟨0, [some []]⟩) 5 ⟨none, none, some 2⟩) ≠ 0 := by
  constructor
  · rfl
  · decide

/-- C5 amended: on quota exhaustion saveFlightData clears its own prior
entry and retries exactly once — if the retried data write fails too it
gives up leaving just the cleared store. When the plain path succeeds,
snapshot and timestamp are replaced together and the failure count is
reset; when the first write hits the quota and the retry succeeds,
snapshot and timestamp are replaced together but the failure count
keeps its prior value. -/
theorem c5_amended_quota_clear_retry (env : WriteEnv) (m : MirrorOutcome)
    (d : FlightData) (now : Nat) (s : LocalStorage)
    (hne : d.states.length ≠ 0) :
    (env.firstKey = WriteOutcome.ok → env.firstTs = WriteOutcome.ok →
        saveFlightData env m (some d) now s = ⟨some d, some now, none⟩) ∧
    (env.firstKey = WriteOutcome.quotaExceeded →
      env.retryKey = WriteOutcome.ok → env.retryTs = WriteOutcome.ok →
        saveFlightData env m (some d) now s
          = ⟨some d, some now, s.failureCount⟩) ∧
    (env.firstKey = WriteOutcome.quotaExceeded →
      env.retryKey ≠ WriteOutcome.ok →
        saveFlightData env m (some d) now s = clearFlightData s) := by
  refine ⟨fun h1 h2 => ?_, fun h1 h2 h3 => ?_, fun h1 h2 => ?_⟩
  · simp [saveFlightData, hne, h1, h2]
  · simp [saveFlightData, saveRetryAfterClear, clearFlightData, hne, h1, h2, h3]
  · cases hr : env.retryKey with
    | ok => exact absurd hr h2
    | quotaExceeded =>
      simp [saveFlightData, saveRetryAfterClear, hne, h1, hr]
    | otherError =>
      simp [saveFlightData, saveRetryAfterClear, hne, h1, hr]

/-- Witness for C5 at a concrete quota-then-retry run. -/
theorem c5_amended_quota_clear_retry_witness :
    saveFlightData
        ⟨WriteOutcome.quotaExceeded, WriteOutcome.otherError, WriteOutcome.ok,
          WriteOutcome.ok⟩ MirrorOutcome.transportError
        (some ⟨0, [some []]⟩) 7 ⟨none, none, some 4⟩
      = ⟨some ⟨0, [some []]⟩, some 7, some 4⟩ :=
  (c5_amended_quota_clear_retry
      ⟨WriteOutcome.quotaExceeded, WriteOutcome.otherError, WriteOutcome.ok,
        WriteOutcome.ok⟩ MirrorOutcome.transportError
      ⟨0, [some []]⟩ 7 ⟨none, none, some 4⟩ (by decide)).2.1 rfl rfl rfl

/-- C1 counterexample: the live fetch failed, the local cache is expired
(saved at 0, cycle at 10^9 ms, failure count becomes 1 so the short
window applies), the remote mirror has two entries and the static
snapshot has one — yet the rendered result is the stale local emergency
snapshot, not the remote mirror. -/
theorem c1_counterexample_mirror_never_consulted :
    (fetchDataFailurePath ⟨some ⟨0, [some []]⟩, some 0, none⟩ 1000000000
        (some ⟨1, [some [], some []]⟩) (some ⟨2, [some []]⟩) "HTTP error").2.tag
      = SourceTag.localEmergency ∧
    (fetchDataFailurePath ⟨some ⟨0, [some []]⟩, some 0, none⟩ 1000000000
        (some ⟨1, [some [], some []]⟩) (some ⟨2, [some []]⟩) "HTTP error").2.rendered
      = some ⟨0, [some []]⟩ ∧
    (fetchDataFailurePath ⟨some ⟨0, [some []]⟩, some 0, none⟩ 1000000000
        (some ⟨1, [some [], some []]⟩) (some ⟨2, [some []]⟩) "HTTP error").2.tag
      ≠ SourceTag.remoteMirror := by
  refine ⟨?_, ?_, ?_⟩ <;> decide

/-- C1 amended: on a failed live fetch the orchestrator records the
failure and then consults only the local snapshot store — loadFlightData
under the current window, then loadFlightDataEmergency at any age; the
remote mirror and the static snapshot are never consulted (the outcome
is invariant under replacing them), and when both local loads yield no
entries it renders the empty state with the surfaced failure reason. -/
theorem c1_amended_failure_chain (s : LocalStorage) (now : Nat)
    (mirror staticSnap : Option FlightData) (msg : String) :
    (fetchDataFailurePath s now mirror staticSnap msg).1
      = recordApiFailure s ∧
    (∀ mirror' staticSnap',
        fetchDataFailurePath s now mirror staticSnap msg
          = fetchDataFailurePath s now mirror' staticSnap' msg) ∧
    (hasEntries (loadFlightData (recordApiFailure s) now) = true →
        (fetchDataFailurePath s now mirror staticSnap msg).2
          = ⟨loadFlightData (recordApiFailure s) now, SourceTag.localCache,
              some msg⟩) ∧
    (hasEntries (loadFlightData (recordApiFailure s) now) = false →
      hasEntries (loadFlightDataEmergency (recordApiFailure s)) = true →
        (fetchDataFailurePath s now mirror staticSnap msg).2
          = ⟨loadFlightDataEmergency (recordApiFailure s),
              SourceTag.localEmergency, some msg⟩) ∧
    (hasEntries (loadFlightData (recordApiFailure s) now) = false →
      hasEntries (loadFlightDataEmergency (recordApiFailure s)) = false →
        (fetchDataFailurePath s now mirror staticSnap msg).2
          = ⟨none, SourceTag.empty, some msg⟩) := by
  refine ⟨?_, fun mirror' staticSnap' => rfl, fun h1 => ?_, fun h1 h2 => ?_,
    fun h1 h2 => ?_⟩
  · unfold fetchDataFailurePath
    by_cases h1 : hasEntries (loadFlightData (recordApiFailure s) now)
    · rw [if_pos h1]
    · rw [if_neg h1]
      by_cases h2 : hasEntries (loadFlightDataEmergency (recordApiFailure s))
      · rw [if_pos h2]
      · rw [if_neg h2]
  · unfold fetchDataFailurePath
    rw [if_pos h1]
  · unfold fetchDataFailurePath
    rw [if_neg (by rw [h1]; exact Bool.false_ne_true), if_pos h2]
  · unfold fetchDataFailurePath
    rw [if_neg (by rw [h1]; exact Bool.false_ne_true),
      if_neg (by rw [h2]; exact Bool.false_ne_true)]

/-- Witness for C1 at a concrete expired-cache state, landing in the
emergency branch. -/
theorem c1_amended_failure_chain_witness :
    (fetchDataFailurePath ⟨some ⟨3, [some []]⟩, some 0, none⟩ 1000000000
        none none "e").2
      = ⟨some ⟨3, [some []]⟩, SourceTag.localEmergency, some "e"⟩ :=
  ((c1_amended_failure_chain ⟨some ⟨3, [some []]⟩, some 0, none⟩ 1000000000
      none none "e").2.2.2.1 (by decide) (by decide)).trans (by decide)

/-- Characterization of the rows accepted by the filter of
fetchBrazilFlights: non-null, at least 17 cells, non-null coordinates
not both zero, not on ground, non-null non-negative altitude. -/
theorem validState_spec (row : Option (List Val))
    (h : validState row = true) :
    ∃ st : List Val, row = some st ∧ 17 ≤ st.length ∧
      st.getD 5 Val.vnull ≠ Val.vnull ∧
      st.getD 6 Val.vnull ≠ Val.vnull ∧
      ¬(st.getD 5 Val.vnull = Val.vnum 0 ∧ st.getD 6 Val.vnull = Val.vnum 0) ∧
      st.getD 8 Val.vnull ≠ Val.vbool true ∧
      st.getD 7 Val.vnull ≠ Val.vnull ∧
      valIsNeg (st.getD 7 Val.vnull) = false := by
  cases row with
  | none => simp [validState] at h
  | some st =>
    refine ⟨st, rfl, ?_⟩
    simp only [validState] at h
    split_ifs at h with h1 h2 h3 h4
    push_neg at h2 h4
    simp only [Bool.not_eq_true] at h4
    refine ⟨by omega, h2.1, h2.2.1, ?_, h3, h4.1, h4.2⟩
    intro hc
    exact h2.2.2 hc.1 hc.2

/-- C10: every snapshot fetchBrazilFlights returns contains only
filtered rows — each a non-null record of at least 17 cells, with
non-null longitude and latitude that are not both zero, an on-ground
flag that is not true, and a non-null, non-negative barometric
altitude — and an OK response whose states field is missing or not an
array makes the fetch throw the invalid-format (malformed) error
instead of returning a snapshot. -/
theorem c10_fetch_filters_rows_and_rejects_malformed :
    (∀ (status : Nat) (body : RawResponse) (d : FlightData),
        fetchBrazilFlights status body = Except.ok d →
        ∀ row ∈ d.states, ∃ st : List Val, row = some st ∧
          17 ≤ st.length ∧
          st.getD 5 Val.vnull ≠ Val.vnull ∧
          st.getD 6 Val.vnull ≠ Val.vnull ∧
          ¬(st.getD 5 Val.vnull = Val.vnum 0 ∧
            st.getD 6 Val.vnull = Val.vnum 0) ∧
          st.getD 8 Val.vnull ≠ Val.vbool true ∧
          st.getD 7 Val.vnull ≠ Val.vnull ∧
          valIsNeg (st.getD 7 Val.vnull) = false) ∧
    (∀ (status : Nat) (body : RawResponse),
        200 ≤ status → status < 300 → body.states = none →
        fetchBrazilFlights status body
          = Except.error FetchError.malformed) := by
  constructor
  · intro status body d hok row hrow
    unfold fetchBrazilFlights at hok
    by_cases hst : 200 ≤ status ∧ status < 300
    · rw [if_neg (not_not_intro hst)] at hok
      cases hbs : body.states with
      | none =>
        rw [hbs] at hok
        exact absurd hok (by simp)
      | some sts =>
        rw [hbs] at hok
        simp only [Except.ok.injEq] at hok
        subst hok
        have hv : validState row = true := (List.mem_filter.mp hrow).2
        exact validState_spec row hv
    · rw [if_pos hst] at hok
      split_ifs at hok
  · intro status body h1 h2 hnone
    unfold fetchBrazilFlights
    rw [if_neg (not_not_intro ⟨h1, h2⟩), hnone]

/-- Example state vector of 17 cells: an airborne aircraft over Brazil
with positive barometric altitude. -/
def sampleRow : List Val :=
  [Val.vstr "e49406", Val.vstr "GLO1742 ", Val.vstr "Brazil",
   Val.vnum 1700000000, Val.vnum 1700000000,
   Val.vnum (-46), Val.vnum (-23), Val.vnum 11000, Val.vbool false,
   Val.vnum 220, Val.vnum 90, Val.vnum 0, Val.vnull, Val.vnum 11200,
   Val.vstr "1200", Val.vbool false, Val.vnum 0]

/-- Witness for C10: a concrete 200 response keeps the airborne sample
row (and drops a null row), and a 200 response without a states array
yields the malformed error. -/
theorem c10_fetch_filters_rows_witness :
    (∃ st : List Val, (some sampleRow : Option (List Val)) = some st ∧
        17 ≤ st.length ∧
        st.getD 5 Val.vnull ≠ Val.vnull ∧
        st.getD 6 Val.vnull ≠ Val.vnull ∧
        ¬(st.getD 5 Val.vnull = Val.vnum 0 ∧
          st.getD 6 Val.vnull = Val.vnum 0) ∧
        st.getD 8 Val.vnull ≠ Val.vbool true ∧
        st.getD 7 Val.vnull ≠ Val.vnull ∧
        valIsNeg (st.getD 7 Val.vnull) = false) ∧
    fetchBrazilFlights 200 ⟨0, none⟩ = Except.error FetchError.malformed :=
  ⟨c10_fetch_filters_rows_and_rejects_malformed.1 200
      ⟨0, some [some sampleRow, none]⟩ ⟨0, [some sampleRow]⟩ (by rfl)
      (some sampleRow) (by decide),
   c10_fetch_filters_rows_and_rejects_malformed.2 200 ⟨0, none⟩
     (by decide) (by decide) rfl⟩

end Flightradar
